import Mathlib

/-!
Verification of the auth controller (`src/app/routes/authController.js`) of the
Stolen-Vehicle-Check repository.  The controller's data model and handlers are
shallowly embedded below: Mongoose documents become structures, the user
collection becomes a list, the promise chains of the handlers become explicit
event traces, and the external collaborators (express-validator's field
validators, the random-byte generator, and the nodemailer transport) become
parameters of the handlers, mirroring exactly how the source calls them.
-/

namespace AuthController

/-- Report document (`reportModel`), as constructed in `postSignup` lines
58-64: `reportType`, `registration`, `stolen`, plus the Mongoose-assigned
`_id` (modelled as a natural number drawn from a counter). -/
structure Report where
  id : Nat
  reportType : String
  registration : String
  stolen : Bool
deriving DecidableEq

/-- Credit document (`creditModel`), as constructed in `postSignup` lines
70-75: `creditType`, `expiresAt`, and the optional `hasReport` flag and
`reportId` reference, which remain `undefined` (here `none`) when no report
is generated. -/
structure Credit where
  creditType : String
  expiresAt : Nat
  hasReport : Option Bool
  reportId : Option Nat
deriving DecidableEq

/-- User document (`userModel`) as the controller uses it: identity fields
set at signup, the password, the optional password-reset token and expiry,
and the embedded credits and reports.  `id` models the Mongoose `_id` used
by `save`. -/
structure User where
  id : Nat
  name : String
  phone : String
  creditCard : String
  email : String
  password : String
  passwordResetToken : Option String
  passwordResetExpires : Option Nat
  credits : List Credit
  reports : List Report
deriving DecidableEq

/-- The user collection: the store backing `User.findOne` / `save`. -/
abbrev Store := List User

/-- Lookup `User.findOne({ email: e })`: first user whose email equals `e`. -/
def findOneByEmail (s : Store) (e : String) : Option User :=
  s.find? (fun u => decide (u.email = e))

/-- Predicate of the reset-token query
`findOne({ passwordResetToken: t }).where('passwordResetExpires').gt(Date.now())`
(lines 302-304 and 331-333): the stored token equals `t` and the stored
expiry is strictly greater than `now`; a record with no expiry fails the
`gt` filter. -/
def resetTokenMatches (t : String) (now : Nat) (u : User) : Bool :=
  decide (u.passwordResetToken = some t) &&
    (match u.passwordResetExpires with
     | some e => decide (now < e)
     | none => false)

/-- The reset-token lookup shared by GET and POST `/password/reset/:token`. -/
def tokenLookup (s : Store) (t : String) (now : Nat) : Option User :=
  s.find? (resetTokenMatches t now)

/-- Document `save` (Mongoose): replace the record with the same `_id`. -/
def saveUser (s : Store) (u : User) : Store :=
  s.map (fun v => if v.id = u.id then u else v)

/-- HTTP response: status code and the `msg` payload. -/
structure Response where
  status : Nat
  msg : String
deriving DecidableEq

/-- Handler for GET `/password/reset/:token` (lines 301-312): run the token
lookup; no match yields 400 `Invalid or expired token`, a match yields 200
`Valid token`.  The handler performs no store write, so the store is returned
unchanged in both branches. -/
def getResetToken (s : Store) (t : String) (now : Nat) : Response × Store :=
  match tokenLookup s t now with
  | none => (⟨400, "Invalid or expired token"⟩, s)
  | some _ => (⟨200, "Valid token"⟩, s)

/-- Observable action of a handler run, in order of occurrence: a document
save, a `transporter.sendMail` call (attempt 1 or the certificate-relaxed
attempt 2), an HTTP response, or a `req.logIn`. -/
inductive Event where
  | save : User → Event
  | mailAttempt : Nat → Event
  | respond : Response → Event
  | login : User → Event
deriving DecidableEq

/-- Outcome of one `transporter.sendMail` call: fulfilled, or rejected with
the given error message. -/
inductive MailOutcome where
  | sent : MailOutcome
  | failed : String → MailOutcome
deriving DecidableEq

/-- Error message the retry branch tests for (line 271). -/
def selfSignedMsg : String := "self signed certificate in certificate chain"

/-- Events of `sendResetPasswordEmail` in `postReset` (lines 268-288),
parameterised by the outcomes of the two possible `sendMail` calls: a
fulfilled first attempt responds 200 `Email sent`; a rejection with the
self-signed-certificate message retries with relaxed TLS and responds 200
only if the retry is fulfilled (a rejected retry has no handler, so no
response); any other rejection is logged and returned as a value, emitting
no response. -/
def sendResetEmailEvents (o1 o2 : MailOutcome) : List Event :=
  match o1 with
  | .sent => [.mailAttempt 1, .respond ⟨200, "Email sent"⟩]
  | .failed m =>
    if m = selfSignedMsg then
      match o2 with
      | .sent => [.mailAttempt 1, .mailAttempt 2, .respond ⟨200, "Email sent"⟩]
      | .failed _ => [.mailAttempt 1, .mailAttempt 2]
    else
      [.mailAttempt 1]

/-- Events of `sendResetPasswordEmail` in `postResetToken` (lines 349-388):
same structure as the variant in `postReset`, with message
`Password updated`. -/
def sendConfirmEmailEvents (o1 o2 : MailOutcome) : List Event :=
  match o1 with
  | .sent => [.mailAttempt 1, .respond ⟨200, "Password updated"⟩]
  | .failed m =>
    if m = selfSignedMsg then
      match o2 with
      | .sent =>
        [.mailAttempt 1, .mailAttempt 2, .respond ⟨200, "Password updated"⟩]
      | .failed _ => [.mailAttempt 1, .mailAttempt 2]
    else
      [.mailAttempt 1]

/-- Outcome of `randomBytesAsync(16)`: 16 random bytes (hex-encoded by the
`then` continuation), or a rejection carrying an error. -/
inductive TokenGen where
  | ok : String → TokenGen
  | genError : String → TokenGen
deriving DecidableEq

/-- Value of `createRandomToken` (lines 225-227): the hex string on success,
and — because of `.catch(err => err)` — the error itself, converted into an
ordinary resolved value, on failure. -/
def resolveToken : TokenGen → String
  | .ok hex => hex
  | .genError msg => msg

/-- Record mutation of `setRandomToken` (lines 237-238): store the token and
a one-hour expiry on the user. -/
def issuedUser (u : User) (token : String) (now : Nat) : User :=
  { u with passwordResetToken := some token, passwordResetExpires := some (now + 3600000) }

/-- Record mutation of `resetPassword` (lines 338-340): set the new password
and clear both reset fields. -/
def resetCompletedUser (u : User) (pw : String) : User :=
  { u with password := pw, passwordResetToken := none, passwordResetExpires := none }

/-- Handler for POST `/password/reset` (lines 215-294), parameterised by the
external collaborators it calls: the email validator and normalizer
(express-validator), the random-token generation outcome, and the outcomes of
the two possible `sendMail` calls.  Returns the final store and the event
trace.  Validation failure responds 400; an unknown email responds 401 naming
it; otherwise the token and a one-hour expiry are saved and the reset email
is sent. -/
def postReset (isEmail : String → Bool) (normalizeEmail : String → String)
    (gen : TokenGen) (o1 o2 : MailOutcome) (s : Store) (reqEmail : String)
    (now : Nat) : Store × List Event :=
  if !(isEmail reqEmail) then
    (s, [.respond ⟨400, "Email is not valid"⟩])
  else
    let em := normalizeEmail reqEmail
    let u' := fun u => issuedUser u (resolveToken gen) now
    match findOneByEmail s em with
    | none => (s, [.respond ⟨401, "Email " ++ em ++ " not found"⟩])
    | some u =>
      (saveUser s (u' u), .save (u' u) :: sendResetEmailEvents o1 o2)

/-- Handler for POST `/password/reset/:token` (lines 319-393): validate the
new password (length at least 8, confirmation equal); re-run the token+expiry
lookup; no match responds 400 — and, because the 400 response object resolves
the promise chain, `sendResetPasswordEmail` still runs and attempts a send;
a match sets the password, clears both reset fields, saves, logs the user in,
and sends the confirmation email. -/
def postResetToken (o1 o2 : MailOutcome) (s : Store)
    (t pw confirmPw : String) (now : Nat) : Store × List Event :=
  if pw.length < 8 then
    (s, [.respond ⟨400, "Password must be at least 8 characters long."⟩])
  else if confirmPw ≠ pw then
    (s, [.respond ⟨400, "Passwords must match."⟩])
  else
    match tokenLookup s t now with
    | none =>
      (s, .respond ⟨400, "Invalid or expired token"⟩ ::
            sendConfirmEmailEvents o1 o2)
    | some u =>
      (saveUser s (resetCompletedUser u pw),
       .save (resetCompletedUser u pw) :: .login (resetCompletedUser u pw) ::
         sendConfirmEmailEvents o1 o2)

/-- Number of HTTP responses in an event trace. -/
def countResponses (tr : List Event) : Nat :=
  (tr.filter (fun e => match e with | .respond _ => true | _ => false)).length

/-- Event classifier: is this a document save? -/
def eventIsSave : Event → Bool
  | .save _ => true
  | _ => false

/-- Event classifier: is this a `sendMail` call? -/
def eventIsMail : Event → Bool
  | .mailAttempt _ => true
  | _ => false

/-- Credit entry of the signup request body: a type tag and the
`generateReport` flag. -/
structure CreditReq where
  creditType : String
  generateReport : Bool
deriving DecidableEq

/-- Signup request body fields the controller reads.  `credits` is `some`
when the body carries an array of credit entries (line 47 checks
`credits instanceof Array`). -/
structure SignupReq where
  name : String
  phone : String
  creditCard : String
  email : String
  credits : Option (List CreditReq)
deriving DecidableEq

/-- Credit/report assembly loop of `postSignup` (lines 52-77): for each
requested credit, when `generateReport` is set a stub Report (registration
`ABC-1234`, not stolen) is pushed with a fresh id and the Credit carries
`hasReport = true` and that id; otherwise both optional fields stay unset.
`expiry` is the shared two-year expiry computed at line 50; `n0` seeds the
id counter standing for Mongoose object-id generation. -/
def buildCredits : List CreditReq → Nat → Nat → List Credit × List Report
  | [], _, _ => ([], [])
  | c :: rest, expiry, n0 =>
    if c.generateReport then
      let done := buildCredits rest expiry (n0 + 1)
      (⟨c.creditType, expiry, some true, some n0⟩ :: done.1,
       ⟨n0, c.creditType, "ABC-1234", false⟩ :: done.2)
    else
      let done := buildCredits rest expiry n0
      (⟨c.creditType, expiry, none, none⟩ :: done.1, done.2)

/-- First validation error of `postSignup` (lines 34-43), parameterised by
the express-validator predicates: the assertions run in source order and the
first failing one's message is reported. -/
def signupValidationError (isMobilePhone isCreditCard isEmail : String → Bool)
    (req : SignupReq) : Option String :=
  if !(isMobilePhone req.phone) then some "Phone is not valid"
  else if !(isCreditCard req.creditCard) then
    some "Credit Card Number is not valid"
  else if !(isEmail req.email) then some "Email is not valid"
  else none

/-- Handler for POST `/signup` (lines 33-107): validate, normalize the email,
assemble credits and reports, construct the user, then check for an existing
user with the same email — if found respond 400 `Email already registered`
with no write and no session; otherwise append the user, establish the
session and respond 200.  The result is (response, store, session user). -/
def postSignup (isMobilePhone isCreditCard isEmail : String → Bool)
    (normalizeEmail : String → String) (s : Store) (req : SignupReq)
    (now newUserId reportSeed : Nat) : Response × Store × Option User :=
  match signupValidationError isMobilePhone isCreditCard isEmail req with
  | some m => (⟨400, m⟩, s, none)
  | none =>
    let em := normalizeEmail req.email
    let built :=
      match req.credits with
      | some cs => buildCredits cs (now + 63072000000) reportSeed
      | none => ([], [])
    let user : User :=
      { id := newUserId, name := req.name, phone := req.phone,
        creditCard := req.creditCard, email := em, password := "",
        passwordResetToken := none, passwordResetExpires := none,
        credits := built.1, reports := built.2 }
    match findOneByEmail s em with
    | some _ => (⟨400, "Email already registered"⟩, s, none)
    | none => (⟨200, "Signup successful"⟩, s ++ [user], some user)

/-- Result of POST `/password/update` (lines 178-196).  The source's
`findOne` callback assigns `user.password` without a null check; when the
lookup returns null the assignment throws, modelled by `nullDeref`. -/
inductive UpdateResult where
  | ok : Response → Store → UpdateResult
  | nullDeref : UpdateResult
deriving DecidableEq

/-- Handler for POST `/password/update`: validate the new password (length at
least 8, confirmation equal), look the user up by the session identity
(`findOne({ email: req.user })`), assign and save.  There is no not-found
branch in the source: a null lookup result reaches the field assignment. -/
def postUpdatePassword (s : Store) (sessionEmail pw confirmPw : String) :
    UpdateResult :=
  if pw.length < 8 then
    .ok ⟨400, "Password must be at least 8 characters long"⟩ s
  else if confirmPw ≠ pw then
    .ok ⟨400, "Passwords do not match"⟩ s
  else
    match findOneByEmail s sessionEmail with
    | none => .nullDeref
    | some u => .ok ⟨200, "Password updated"⟩ (saveUser s { u with password := pw })

/-- Per-entry report linkage of a constructed Credit relative to the reports
constructed in the same signup operation. -/
def creditLinkSpec (rs : List Report) (c : CreditReq) (cr : Credit) : Prop :=
  if c.generateReport then
    cr.hasReport = some true ∧ ∃ r, r ∈ rs ∧ cr.reportId = some r.id
  else cr.hasReport = none ∧ cr.reportId = none

/-- Concrete user record used to instantiate the theorems: reset token
`tok`, expiry 100. -/
def sampleUser : User :=
  { id := 1, name := "A", phone := "+14155552671",
    creditCard := "4111111111111111", email := "a@b.com",
    password := "oldpassword", passwordResetToken := some "tok",
    passwordResetExpires := some 100, credits := [], reports := [] }

/-- The sample user right after a reset request at time 10 stored the token
`deadbeef`. -/
def resetIssuedUser : User := issuedUser sampleUser "deadbeef" 10

/-- Signup request reusing the sample user's email. -/
def dupSignupReq : SignupReq :=
  { name := "B", phone := "+14155552672", creditCard := "4111111111111111",
    email := "a@b.com", credits := none }

theorem resetTokenMatches_iff (t : String) (now : Nat) (u : User) :
    resetTokenMatches t now u = true ↔
      u.passwordResetToken = some t ∧
        ∃ e, u.passwordResetExpires = some e ∧ now < e := by
  unfold resetTokenMatches
  cases h : u.passwordResetExpires with
  | none => simp [h]
  | some e => simp [h]

theorem tokenLookup_isSome_iff (s : Store) (t : String) (now : Nat) :
    (tokenLookup s t now).isSome ↔
      ∃ u, u ∈ s ∧ u.passwordResetToken = some t ∧
        ∃ e, u.passwordResetExpires = some e ∧ now < e := by
  unfold tokenLookup
  rw [List.find?_isSome]
  constructor
  · rintro ⟨u, hu, hp⟩
    exact ⟨u, hu, (resetTokenMatches_iff t now u).mp hp⟩
  · rintro ⟨u, hu, hp⟩
    exact ⟨u, hu, (resetTokenMatches_iff t now u).mpr hp⟩

/-- C1: the reset-token lookup used by GET and POST `/password/reset/:token`
accepts a token exactly when the current time is strictly below the stored
expiry; when every record carrying the token has its expiry equal to the
current time, the lookup finds no match, GET responds 400
`Invalid or expired token`, and POST (with a valid password) responds the
same 400 as its first emitted event. -/
theorem resetToken_strict_expiry (s : Store) (t : String) (now : Nat)
    (hb : ∀ u, u ∈ s → u.passwordResetToken = some t →
      u.passwordResetExpires = some now) :
    ((tokenLookup s t now).isSome ↔
      ∃ u, u ∈ s ∧ u.passwordResetToken = some t ∧
        ∃ e, u.passwordResetExpires = some e ∧ now < e) ∧
    tokenLookup s t now = none ∧
    getResetToken s t now = (⟨400, "Invalid or expired token"⟩, s) ∧
    ∀ o1 o2 pw, 8 ≤ pw.length →
      ((postResetToken o1 o2 s t pw pw now).2).head? =
        some (Event.respond ⟨400, "Invalid or expired token"⟩) := by
  have hnone : tokenLookup s t now = none := by
    unfold tokenLookup
    rw [List.find?_eq_none]
    intro u hu hp
    obtain ⟨htok, e, hexp, hlt⟩ := (resetTokenMatches_iff t now u).mp hp
    have : e = now := by
      have := hb u hu htok
      rw [hexp] at this
      exact Option.some.inj this
    omega
  refine ⟨tokenLookup_isSome_iff s t now, hnone, ?_, ?_⟩
  · unfold getResetToken
    rw [hnone]
  · intro o1 o2 pw hpw
    have hlen : ¬ pw.length < 8 := by omega
    unfold postResetToken
    simp [hlen, hnone]

theorem resetToken_strict_expiry_witness :
    tokenLookup [sampleUser] "tok" 100 = none ∧
    getResetToken [sampleUser] "tok" 100 =
      (⟨400, "Invalid or expired token"⟩, [sampleUser]) ∧
    ((postResetToken .sent .sent [sampleUser] "tok" "password1" "password1"
        100).2).head? =
      some (Event.respond ⟨400, "Invalid or expired token"⟩) := by
  have h := resetToken_strict_expiry [sampleUser] "tok" 100 (by decide)
  exact ⟨h.2.1, h.2.2.1, h.2.2.2 .sent .sent "password1" (by decide)⟩

/-- C8: GET `/password/reset/:token` performs no mutation: the store, hence
every user record with all of its fields, is identical before and after the
handler runs, whether or not the token matches. -/
theorem getResetToken_no_mutation (s : Store) (t : String) (now : Nat) :
    (getResetToken s t now).2 = s ∧
      ∀ u, u ∈ (getResetToken s t now).2 ↔ u ∈ s := by
  unfold getResetToken
  cases tokenLookup s t now <;> simp

theorem resetTokenMatches_false_of_none (t : String) (now : Nat) (u : User)
    (h : u.passwordResetToken = none) : resetTokenMatches t now u = false := by
  unfold resetTokenMatches
  simp [h]

/-- C2: after a successful POST `/password/reset/:token` completion (valid
non-expired token, valid password), the persisted record has both the reset
token and the reset expiry simultaneously absent, and — the token identifying
a single record — the old token no longer matches any record in the store at
any later time. -/
theorem postResetToken_clears_reset_fields
    (o1 o2 : MailOutcome) (s : Store) (t pw : String) (now : Nat) (u : User)
    (hpw : 8 ≤ pw.length)
    (hfound : tokenLookup s t now = some u)
    (huniq : ∀ v, v ∈ s → v.passwordResetToken = some t → v.id = u.id) :
    (postResetToken o1 o2 s t pw pw now).1 = saveUser s (resetCompletedUser u pw) ∧
    (resetCompletedUser u pw).passwordResetToken = none ∧
    (resetCompletedUser u pw).passwordResetExpires = none ∧
    ∀ now2, tokenLookup (postResetToken o1 o2 s t pw pw now).1 t now2 = none := by
  have hlen : ¬ pw.length < 8 := by omega
  have hres : (postResetToken o1 o2 s t pw pw now).1 =
      saveUser s (resetCompletedUser u pw) := by
    unfold postResetToken
    simp [hlen, hfound]
  refine ⟨hres, rfl, rfl, ?_⟩
  intro now2
  rw [hres]
  unfold tokenLookup saveUser
  rw [List.find?_eq_none]
  intro v' hv'
  rw [List.mem_map] at hv'
  obtain ⟨v, hv, rfl⟩ := hv'
  by_cases hid : v.id = (resetCompletedUser u pw).id
  · simp only [hid, if_true]
    rw [resetTokenMatches_false_of_none t now2 _ rfl]
    simp
  · simp only [hid, if_false]
    intro hmatch
    exact hid (huniq v hv ((resetTokenMatches_iff t now2 v).mp hmatch).1)

theorem postResetToken_clears_reset_fields_witness :
    tokenLookup ((postResetToken .sent .sent [sampleUser] "tok" "password1"
      "password1" 50).1) "tok" 99 = none :=
  (postResetToken_clears_reset_fields .sent .sent [sampleUser] "tok"
    "password1" 50 sampleUser (by decide) (by decide) (by decide)).2.2.2 99

theorem sendResetEmailEvents_no_save (o1 o2 : MailOutcome) :
    ∀ e, e ∈ sendResetEmailEvents o1 o2 → eventIsSave e = false := by
  intro e he
  cases o1 with
  | sent =>
    simp only [sendResetEmailEvents, List.mem_cons, List.mem_singleton,
      List.not_mem_nil, or_false] at he
    rcases he with rfl | rfl <;> rfl
  | failed m =>
    cases o2 with
    | sent =>
      by_cases hm : m = selfSignedMsg
      · simp only [sendResetEmailEvents, if_pos hm, List.mem_cons,
          List.mem_singleton, List.not_mem_nil, or_false] at he
        rcases he with rfl | rfl | rfl <;> rfl
      · simp only [sendResetEmailEvents, if_neg hm, List.mem_singleton] at he
        subst he; rfl
    | failed m2 =>
      by_cases hm : m = selfSignedMsg
      · simp only [sendResetEmailEvents, if_pos hm, List.mem_cons,
          List.mem_singleton, List.not_mem_nil, or_false] at he
        rcases he with rfl | rfl <;> rfl
      · simp only [sendResetEmailEvents, if_neg hm, List.mem_singleton] at he
        subst he; rfl

theorem sendConfirmEmailEvents_no_save (o1 o2 : MailOutcome) :
    ∀ e, e ∈ sendConfirmEmailEvents o1 o2 → eventIsSave e = false := by
  intro e he
  cases o1 with
  | sent =>
    simp only [sendConfirmEmailEvents, List.mem_cons, List.mem_singleton,
      List.not_mem_nil, or_false] at he
    rcases he with rfl | rfl <;> rfl
  | failed m =>
    cases o2 with
    | sent =>
      by_cases hm : m = selfSignedMsg
      · simp only [sendConfirmEmailEvents, if_pos hm, List.mem_cons,
          List.mem_singleton, List.not_mem_nil, or_false] at he
        rcases he with rfl | rfl | rfl <;> rfl
      · simp only [sendConfirmEmailEvents, if_neg hm, List.mem_singleton] at he
        subst he; rfl
    | failed m2 =>
      by_cases hm : m = selfSignedMsg
      · simp only [sendConfirmEmailEvents, if_pos hm, List.mem_cons,
          List.mem_singleton, List.not_mem_nil, or_false] at he
        rcases he with rfl | rfl <;> rfl
      · simp only [sendConfirmEmailEvents, if_neg hm, List.mem_singleton] at he
        subst he; rfl

theorem no_save_trace_precedes (tr : List Event)
    (hns : ∀ e, e ∈ tr → eventIsSave e = false)
    (i j : Nat) (ei ej : Event)
    (hi : tr[i]? = some ei) (hj : tr[j]? = some ej)
    (hsi : eventIsSave ei = true) (hmj : eventIsMail ej = true) : i < j := by
  have := hns ei (List.getElem?_mem hi)
  rw [hsi] at this
  cases this

theorem save_head_trace_precedes (u : User) (tail : List Event)
    (hns : ∀ e, e ∈ tail → eventIsSave e = false)
    (i j : Nat) (ei ej : Event)
    (hi : (Event.save u :: tail)[i]? = some ei)
    (hj : (Event.save u :: tail)[j]? = some ej)
    (hsi : eventIsSave ei = true) (hmj : eventIsMail ej = true) : i < j := by
  cases i with
  | zero =>
    cases j with
    | zero =>
      rw [List.getElem?_cons_zero] at hj
      injection hj with hj
      subst hj
      simp [eventIsMail] at hmj
    | succ j2 => exact Nat.succ_pos j2
  | succ i2 =>
    rw [List.getElem?_cons_succ] at hi
    have := hns ei (List.getElem?_mem hi)
    rw [hsi] at this
    cases this

theorem postReset_trace_structure (isEmail : String → Bool)
    (normalizeEmail : String → String) (gen : TokenGen) (o1 o2 : MailOutcome)
    (s : Store) (reqEmail : String) (now : Nat) :
    (∀ e, e ∈ (postReset isEmail normalizeEmail gen o1 o2 s reqEmail now).2 →
        eventIsSave e = false) ∨
    ∃ u' tail,
      (postReset isEmail normalizeEmail gen o1 o2 s reqEmail now).2 =
        Event.save u' :: tail ∧ ∀ e, e ∈ tail → eventIsSave e = false := by
  unfold postReset
  by_cases hv : isEmail reqEmail
  · simp only [hv, Bool.not_true, Bool.false_eq_true, if_false]
    cases h : findOneByEmail s (normalizeEmail reqEmail) with
    | none =>
      left
      intro e he
      simp only [List.mem_singleton] at he
      subst he; rfl
    | some u =>
      right
      exact ⟨_, _, rfl, sendResetEmailEvents_no_save o1 o2⟩
  · simp only [hv, Bool.not_false, if_true]
    left
    intro e he
    simp only [List.mem_singleton] at he
    subst he; rfl

theorem postResetToken_trace_structure (o1 o2 : MailOutcome) (s : Store)
    (t pw confirmPw : String) (now : Nat) :
    (∀ e, e ∈ (postResetToken o1 o2 s t pw confirmPw now).2 →
        eventIsSave e = false) ∨
    ∃ u' tail,
      (postResetToken o1 o2 s t pw confirmPw now).2 =
        Event.save u' :: tail ∧ ∀ e, e ∈ tail → eventIsSave e = false := by
  unfold postResetToken
  by_cases h1 : pw.length < 8
  · simp only [if_pos h1]
    left
    intro e he
    simp only [List.mem_singleton] at he
    subst he; rfl
  · by_cases h2 : confirmPw ≠ pw
    · simp only [if_neg h1, if_pos h2]
      left
      intro e he
      simp only [List.mem_singleton] at he
      subst he; rfl
    · simp only [if_neg h1, if_neg h2]
      cases h : tokenLookup s t now with
      | none =>
        left
        intro e he
        simp only [List.mem_cons] at he
        rcases he with rfl | he
        · rfl
        · exact sendConfirmEmailEvents_no_save o1 o2 e he
      | some u =>
        right
        refine ⟨_, _, rfl, ?_⟩
        intro e he
        simp only [List.mem_cons] at he
        rcases he with rfl | he
        · rfl
        · exact sendConfirmEmailEvents_no_save o1 o2 e he

/-- C7: within a single POST `/password/reset` run and a single POST
`/password/reset/:token` run, every document save in the event trace occurs
strictly before every `sendMail` call: the record mutation is persisted
before the email is attempted. -/
theorem save_completes_before_send
    (isEmail : String → Bool) (normalizeEmail : String → String)
    (gen : TokenGen) (o1 o2 p1 p2 : MailOutcome) (s s2 : Store)
    (reqEmail t pw confirmPw : String) (now now2 : Nat) (tr : List Event)
    (htr : tr = (postReset isEmail normalizeEmail gen o1 o2 s reqEmail now).2 ∨
           tr = (postResetToken p1 p2 s2 t pw confirmPw now2).2)
    (i j : Nat) (ei ej : Event)
    (hi : tr[i]? = some ei) (hj : tr[j]? = some ej)
    (hsi : eventIsSave ei = true) (hmj : eventIsMail ej = true) : i < j := by
  rcases htr with rfl | rfl
  · rcases postReset_trace_structure isEmail normalizeEmail gen o1 o2 s
        reqEmail now with hns | ⟨u', tail, heq, hns⟩
    · exact no_save_trace_precedes _ hns i j ei ej hi hj hsi hmj
    · rw [heq] at hi hj
      exact save_head_trace_precedes u' tail hns i j ei ej hi hj hsi hmj
  · rcases postResetToken_trace_structure p1 p2 s2 t pw confirmPw now2 with
      hns | ⟨u', tail, heq, hns⟩
    · exact no_save_trace_precedes _ hns i j ei ej hi hj hsi hmj
    · rw [heq] at hi hj
      exact save_head_trace_precedes u' tail hns i j ei ej hi hj hsi hmj

theorem save_completes_before_send_witness : (0 : Nat) < 1 :=
  save_completes_before_send (fun _ => true) (fun e => e) (.ok "deadbeef")
    .sent .sent .sent .sent [sampleUser] [sampleUser] "a@b.com" "tok"
    "password1" "password1" 10 50
    ((postReset (fun _ => true) (fun e => e) (.ok "deadbeef") .sent .sent
      [sampleUser] "a@b.com" 10).2)
    (Or.inl rfl) 0 1 (Event.save resetIssuedUser) (Event.mailAttempt 1)
    (by decide) (by decide) rfl rfl

/-- C4 (defect in the code): on a first `sendMail` rejection with the
self-signed-certificate message followed by a fulfilled retry, the single
success response is emitted only after the retry (the trace places it after
both mail attempts); and on any other rejection no response is emitted at
all — contradicting the claim that exactly one response is emitted
immediately after the first send attempt resolves. -/
theorem postReset_response_after_retry_or_missing :
    (postReset (fun _ => true) (fun e => e) (.ok "deadbeef")
        (.failed selfSignedMsg) .sent [sampleUser] "a@b.com" 10).2 =
      [Event.save resetIssuedUser, Event.mailAttempt 1, Event.mailAttempt 2,
        Event.respond ⟨200, "Email sent"⟩] ∧
    countResponses ((postReset (fun _ => true) (fun e => e) (.ok "deadbeef")
        (.failed "ECONNREFUSED") .sent [sampleUser] "a@b.com" 10).2) = 0 := by
  constructor
  · rfl
  · rfl

/-- C5 (defect in the code): when the primary `sendMail` rejects with an
error other than the self-signed-certificate one, or the certificate-relaxed
retry rejects as well, the handler emits no HTTP response whatsoever — the
request is left unanswered instead of receiving the 500-class
`error sending email` the claim requires. -/
theorem postReset_hard_mail_failure_unanswered :
    countResponses ((postReset (fun _ => true) (fun e => e) (.ok "deadbeef")
        (.failed "ECONNREFUSED") .sent [sampleUser] "a@b.com" 10).2) = 0 ∧
    countResponses ((postReset (fun _ => true) (fun e => e) (.ok "deadbeef")
        (.failed selfSignedMsg) (.failed "ETIMEDOUT") [sampleUser] "a@b.com"
        10).2) = 0 := by
  constructor
  · rfl
  · rfl

theorem sendResetEmailEvents_responses (o1 o2 : MailOutcome) :
    ∀ r, Event.respond r ∈ sendResetEmailEvents o1 o2 →
      r = ⟨200, "Email sent"⟩ := by
  intro r hr
  cases o1 with
  | sent =>
    simp [sendResetEmailEvents] at hr
    exact hr
  | failed m =>
    cases o2 with
    | sent =>
      by_cases hm : m = selfSignedMsg
      · simp [sendResetEmailEvents, if_pos hm] at hr
        exact hr
      · simp [sendResetEmailEvents, if_neg hm] at hr
    | failed m2 =>
      by_cases hm : m = selfSignedMsg
      · simp [sendResetEmailEvents, if_pos hm] at hr
      · simp [sendResetEmailEvents, if_neg hm] at hr

/-- C10: when random-token generation fails, `.catch(err => err)` converts
the error into an ordinary value: with a known email the handler stores the
error value itself as the reset token together with the one-hour expiry,
saves, continues to the email step, and every response it can emit is the
200 `Email sent` — the generation failure is never reported to the client. -/
theorem postReset_generation_failure_swallowed
    (isEmail : String → Bool) (normalizeEmail : String → String)
    (msg : String) (o1 o2 : MailOutcome) (s : Store) (reqEmail : String)
    (now : Nat) (u : User)
    (hv : isEmail reqEmail = true)
    (hfound : findOneByEmail s (normalizeEmail reqEmail) = some u) :
    postReset isEmail normalizeEmail (.genError msg) o1 o2 s reqEmail now =
      (saveUser s (issuedUser u msg now),
        Event.save (issuedUser u msg now) :: sendResetEmailEvents o1 o2) ∧
    (issuedUser u msg now).passwordResetToken = some msg ∧
    (issuedUser u msg now).passwordResetExpires = some (now + 3600000) ∧
    ∀ r, Event.respond r ∈
        (postReset isEmail normalizeEmail (.genError msg) o1 o2 s reqEmail
          now).2 → r = ⟨200, "Email sent"⟩ := by
  have hres : postReset isEmail normalizeEmail (.genError msg) o1 o2 s
      reqEmail now =
      (saveUser s (issuedUser u msg now),
        Event.save (issuedUser u msg now) :: sendResetEmailEvents o1 o2) := by
    unfold postReset
    simp [hv, hfound, resolveToken]
  refine ⟨hres, rfl, rfl, ?_⟩
  intro r hr
  rw [hres] at hr
  rcases List.mem_cons.mp hr with h | h
  · exact Event.noConfusion h
  · exact sendResetEmailEvents_responses o1 o2 r h

theorem postReset_generation_failure_swallowed_witness :
    postReset (fun _ => true) (fun e => e) (.genError "entropy pool empty")
      .sent .sent [sampleUser] "a@b.com" 10 =
    (saveUser [sampleUser] (issuedUser sampleUser "entropy pool empty" 10),
      Event.save (issuedUser sampleUser "entropy pool empty" 10) ::
        sendResetEmailEvents .sent .sent) :=
  (postReset_generation_failure_swallowed (fun _ => true) (fun e => e)
    "entropy pool empty" .sent .sent [sampleUser] "a@b.com" 10 sampleUser
    rfl rfl).1

/-- C3: a POST `/signup` that passes field validation but whose normalized
email already belongs to a stored user responds 400
`Email already registered`, leaves the store unchanged, and establishes no
session. -/
theorem postSignup_duplicate_no_write
    (isMobilePhone isCreditCard isEmail : String → Bool)
    (normalizeEmail : String → String) (s : Store) (req : SignupReq)
    (now newUserId reportSeed : Nat)
    (hval : signupValidationError isMobilePhone isCreditCard isEmail req = none)
    (hdup : ∃ u, u ∈ s ∧ u.email = normalizeEmail req.email) :
    postSignup isMobilePhone isCreditCard isEmail normalizeEmail s req now
      newUserId reportSeed = (⟨400, "Email already registered"⟩, s, none) := by
  obtain ⟨u, hu, he⟩ := hdup
  have hsome : (findOneByEmail s (normalizeEmail req.email)).isSome := by
    unfold findOneByEmail
    rw [List.find?_isSome]
    exact ⟨u, hu, by simp [he]⟩
  obtain ⟨w, hw⟩ := Option.isSome_iff_exists.mp hsome
  simp only [postSignup, hval, hw]

theorem postSignup_duplicate_no_write_witness :
    postSignup (fun _ => true) (fun _ => true) (fun _ => true) (fun e => e)
      [sampleUser] dupSignupReq 0 2 0 =
    (⟨400, "Email already registered"⟩, [sampleUser], none) :=
  postSignup_duplicate_no_write (fun _ => true) (fun _ => true)
    (fun _ => true) (fun e => e) [sampleUser] dupSignupReq 0 2 0 rfl
    ⟨sampleUser, by decide, rfl⟩

theorem creditLinkSpec_mono (r0 : Report) (rs : List Report) (c : CreditReq)
    (cr : Credit) (h : creditLinkSpec rs c cr) :
    creditLinkSpec (r0 :: rs) c cr := by
  unfold creditLinkSpec at h ⊢
  by_cases hg : c.generateReport
  · rw [if_pos hg] at h ⊢
    obtain ⟨h1, r, hr, h2⟩ := h
    exact ⟨h1, r, List.mem_cons_of_mem r0 hr, h2⟩
  · rw [if_neg hg] at h ⊢
    exact h

/-- C6: each constructed Credit corresponds positionally to its request
entry: with `generateReport` set, the Credit carries `hasReport = true` and
a `reportId` equal to the id of a Report constructed in the same signup
operation; without it, both the flag and the reference stay unset. -/
theorem buildCredits_report_linkage (reqs : List CreditReq) (expiry n0 : Nat) :
    List.Forall₂ (creditLinkSpec (buildCredits reqs expiry n0).2) reqs
      (buildCredits reqs expiry n0).1 := by
  induction reqs generalizing n0 with
  | nil => exact List.Forall₂.nil
  | cons c rest ih =>
    by_cases hg : c.generateReport
    · simp only [buildCredits, if_pos hg]
      refine List.Forall₂.cons ?_ ?_
      · unfold creditLinkSpec
        rw [if_pos hg]
        exact ⟨rfl, ⟨n0, c.creditType, "ABC-1234", false⟩,
          List.mem_cons_self _ _, rfl⟩
      · exact (ih (n0 + 1)).imp
          (fun a b hab => creditLinkSpec_mono _ _ a b hab)
    · simp only [buildCredits, if_neg hg]
      refine List.Forall₂.cons ?_ (ih n0)
      unfold creditLinkSpec
      rw [if_neg hg]
      exact ⟨rfl, rfl⟩

/-- C9: a POST `/password/update` that passes validation but whose session
identity matches no stored record reaches the null dereference: the source
has no not-found branch, so the run has no defined error response. -/
theorem postUpdatePassword_null_deref (s : Store) (sessionEmail pw : String)
    (hpw : 8 ≤ pw.length)
    (hnone : findOneByEmail s sessionEmail = none) :
    postUpdatePassword s sessionEmail pw pw = .nullDeref := by
  have hlen : ¬ pw.length < 8 := by omega
  unfold postUpdatePassword
  simp [hlen, hnone]

theorem postUpdatePassword_null_deref_witness :
    postUpdatePassword [] "ghost@example.com" "password1" "password1" =
      .nullDeref :=
  postUpdatePassword_null_deref [] "ghost@example.com" "password1"
    (by decide) rfl

end AuthController
